import Mathlib

/-
Verification of syzygy/trace/logger/logger_app.cc (the LoggerApp lifecycle
coordinator) against its natural-language specification.

Wide strings (std::wstring, wchar_t arrays) are modelled as Lean String
values.  Windows kernel objects are represented by the names they are
created under; the outcome of each OS or RPC call is supplied by an
explicit environment record, and the observable behaviour of an action is
the pair of its boolean result and the ordered trace of the external calls
it performed.
-/

namespace Syzygy

/-! ### Names for kernel objects (logger_app.cc lines 66-69) -/

def kLoggerMutexRoot : String := "syzygy-logger-mutex"

def kLoggerStartEventRoot : String := "syzygy-logger-started"

def kLoggerStopEventRoot : String := "syzygy-logger-stopped"

/-- Modelled from the spec: GetInstanceString (declared in
syzygy/trace/protocol/call_trace_defs.h, which is not under src/) derives a
canonical object name for an instance; spec section 6: named OS objects are
"each named by concatenating a fixed root string with the InstanceId". -/
def GetInstanceString (root id : String) : String := root ++ id

def mutexName (id : String) : String := GetInstanceString kLoggerMutexRoot id

def startEventName (id : String) : String :=
  GetInstanceString kLoggerStartEventRoot id

def stopEventName (id : String) : String :=
  GetInstanceString kLoggerStopEventRoot id

/-! ### The instance-id buffer (logger_app.cc lines 71-75)

`wchar_t saved_instance_id[16]` is the static buffer holding the instance
id published for the console control handler; `kMaxInstanceIdLength` is
`arraysize(saved_instance_id) - 1`. -/

def savedInstanceIdArraySize : Nat := 16

def kMaxInstanceIdLength : Nat := savedInstanceIdArraySize - 1

/-! ### SplitCommandLine (logger_app.cc lines 206-255) -/

/-- std::wstring operator[] at index 0, as used by the scan condition
`(*it)[0] != L'-'`: the first character of the token, or the NUL character
for the empty token (operator[] at position size() yields NUL). -/
def charAt0 (t : String) : Char := t.data.headD (Char.ofNat 0)

/-- The scanning loop of SplitCommandLine (lines 229-235): each token is
appended to the logger argv, and the loop stops immediately after appending
the first token whose first character is not the switch dash (that token is
the action).  Returns the appended tokens and the unconsumed remainder. -/
def splitScan : List String → List String × List String
  | [] => ([], [])
  | t :: rest =>
    if charAt0 t == '-' then
      let r := splitScan rest
      (t :: r.1, r.2)
    else
      ([t], rest)

/-- SplitCommandLine (lines 214-255): the program token is always copied;
then the scan of `splitScan`; then an optional "--" sentinel right after
the split point is consumed (lines 237-240); the remaining tokens form the
app command line, absent when there are none (lines 242-252).  The source
DCHECKs that argv is nonempty, so the [] case is unreachable. -/
def SplitCommandLine : List String → List String × Option (List String)
  | [] => ([], none)
  | program :: rest =>
    let s := splitScan rest
    let afterSep := if s.2.head? == some "--" then s.2.tail else s.2
    (program :: s.1, if afterSep.isEmpty then none else some afterSep)

/-- A token "begins with the switch prefix", in the words of the
specification of the CommandLineSplitter. -/
def beginsWithDash (t : String) : Bool := t.data.head? == some '-'

/-- The CommandLineSplitter algorithm exactly as the specification words
it: always copy the program token; append every switch token and then the
first non-switch token (the action), stopping immediately after it; consume
a following separator token; the remaining tokens form the wrapped command,
absent when none remain. -/
def splitSpec : List String → List String × Option (List String)
  | [] => ([], none)
  | program :: rest =>
    let sw := rest.takeWhile beginsWithDash
    match rest.dropWhile beginsWithDash with
    | [] => (program :: sw, none)
    | action :: tail =>
      let tl := if tail.head? == some "--" then tail.tail else tail
      (program :: (sw ++ [action]), if tl.isEmpty then none else some tl)

lemma charAt0_eq_dash (t : String) : (charAt0 t == '-') = beginsWithDash t := by
  cases t with
  | mk l => cases l <;> rfl

lemma splitScan_eq (l : List String) :
    splitScan l =
      (match l.dropWhile beginsWithDash with
       | [] => (l.takeWhile beginsWithDash, [])
       | a :: r => (l.takeWhile beginsWithDash ++ [a], r)) := by
  induction l with
  | nil => rfl
  | cons t rest ih =>
    simp only [splitScan, charAt0_eq_dash]
    cases hb : beginsWithDash t with
    | false =>
      simp [List.takeWhile_cons, List.dropWhile_cons, hb]
    | true =>
      cases hdw : rest.dropWhile beginsWithDash with
      | nil => simp [List.takeWhile_cons, List.dropWhile_cons, hb, ih, hdw]
      | cons a r => simp [List.takeWhile_cons, List.dropWhile_cons, hb, ih, hdw]

/-- C5: SplitCommandLine copies the program token into the controller
arguments, appends each subsequent token up to and including the first
token that does not begin with the switch dash, consumes a following "--"
token, and makes the remaining tokens the wrapped command, absent when none
remain; an empty token is treated as non-switch and ends the scan.  Stated
as extensional equality with the algorithm as the specification words it,
together with the concrete examples of the claim (the third one shows the
empty token acting as the scan-ending action token). -/
theorem split_c5 :
    (∀ argv, SplitCommandLine argv = splitSpec argv) ∧
    SplitCommandLine ["prog", "--instance-id=x", "start", "--", "app", "--flag"] =
      (["prog", "--instance-id=x", "start"], some ["app", "--flag"]) ∧
    SplitCommandLine ["prog", "start"] = (["prog", "start"], none) ∧
    SplitCommandLine ["prog", "", "wrapped"] = (["prog", ""], some ["wrapped"]) := by
  refine ⟨?_, by decide, by decide, by decide⟩
  intro argv
  cases argv with
  | nil => rfl
  | cons program rest =>
    simp only [SplitCommandLine, splitSpec, splitScan_eq]
    cases hdw : rest.dropWhile beginsWithDash with
    | nil => simp
    | cons a r => simp

/-! ### A minimal model of Chromium base::CommandLine

Modelled from the spec: base::CommandLine is not part of this repository
(it lives in Chromium base, not under src/).  Per the specification's
invocation shape, tokens beginning with the switch prefix are switches of
the form `--name=value`, and the remaining tokens are the plain arguments
(`GetArgs`). -/

/-- Modelled from the spec: a switch token `--name=value` is parsed by
stripping the leading dashes and splitting at the first `=`; without an
`=` the value is empty. -/
def parseSwitch (t : String) : String × String :=
  let body := t.data.dropWhile (fun c => c == '-')
  (String.mk (body.takeWhile (fun c => !(c == '='))),
   String.mk ((body.dropWhile (fun c => !(c == '='))).drop 1))

structure CommandLineM where
  program : String
  switches : List (String × String)
  args : List String
deriving DecidableEq

/-- Modelled from the spec: CommandLine::InitFromArgv.  The first token is
the program; switch tokens populate the switch map and the others the plain
argument list. -/
def initFromArgv (argv : List String) : CommandLineM :=
  match argv with
  | [] => { program := "", switches := [], args := [] }
  | p :: rest =>
    { program := p
      switches := (rest.filter (fun t => beginsWithDash t)).map parseSwitch
      args := rest.filter (fun t => !beginsWithDash t) }

/-- Modelled from the spec: CommandLine::GetSwitchValueNative, empty when
the switch is absent. -/
def getSwitchValue (cl : CommandLineM) (name : String) : String :=
  match cl.switches.find? (fun sv => sv.1 == name) with
  | some sv => sv.2
  | none => ""

/-- Modelled from the spec: CommandLine::HasSwitch. -/
def hasSwitch (cl : CommandLineM) (name : String) : Bool :=
  (cl.switches.find? (fun sv => sv.1 == name)).isSome

/-! ### The action table and ParseCommandLine (logger_app.cc 292-395) -/

inductive ActionType where
  | spawn
  | start
  | status
  | stop
deriving DecidableEq

/-- The action dispatch table (lines 304-309), in its source order, which
the source DCHECKs to be sorted by action name. -/
def kActionTable : List (String × ActionType) :=
  [("spawn", ActionType.spawn), ("start", ActionType.start),
   ("status", ActionType.status), ("stop", ActionType.stop)]

/-- wcscmp-style lexicographic "less than" on wide strings, character by
character. -/
def wcsLt : List Char → List Char → Bool
  | [], [] => false
  | [], _ :: _ => true
  | _ :: _, [] => false
  | a :: s, b :: t => if a < b then true else if b < a then false else wcsLt s t

/-- std::lower_bound over the sorted action table: the first entry whose
action name is not lexicographically less than the query, or none when the
search runs past the end.  The comparator ActionTableEntryCompare is
declared in logger_app.h (not under src/); modelled from the spec as
lexicographic comparison of action names, the order under which the table
is sorted. -/
def lowerBound (es : List (String × ActionType)) (a : String) :
    Option (String × ActionType) :=
  match es with
  | [] => none
  | e :: rest => if wcsLt e.1.data a.data then lowerBound rest a else some e

/-- FindActionHandler (lines 380-395): a lower_bound search; the result is
returned whenever it is not the end iterator.  Note that the source never
compares the found entry's name with the query. -/
def FindActionHandler (action : String) : Option (String × ActionType) :=
  lowerBound kActionTable action

structure LoggerApp where
  logger_command_line : CommandLineM
  app_command_line : Option (List String)
  instance_id : String
  output_file_path : String
  append : Bool
deriving DecidableEq

/-- ParseCommandLine (lines 321-370): split the command line, read the
instance id (usage failure when longer than kMaxInstanceIdLength), read the
output file switch, require exactly one plain argument (the action), read
the append flag, and look the action up with FindActionHandler (usage
failure when the lookup returns none).  Usage failures are modelled as
`none`; success carries the populated state and the installed handler. -/
def ParseCommandLine (argv : List String) : Option (LoggerApp × ActionType) :=
  let s := SplitCommandLine argv
  let cl := initFromArgv s.1
  let instanceId := getSwitchValue cl "instance-id"
  if instanceId.length > kMaxInstanceIdLength then none
  else
    let outputPath := getSwitchValue cl "output-file"
    if cl.args.length ≠ 1 then none
    else
      let doAppend := hasSwitch cl "append"
      let action := cl.args.headD ""
      match FindActionHandler action with
      | none => none
      | some e =>
        some ({ logger_command_line := cl, app_command_line := s.2,
                instance_id := instanceId, output_file_path := outputPath,
                append := doAppend }, e.2)

/-- C1: the claim says ParseCommandLine fails with a usage message for any
unknown action token.  The code does not: FindActionHandler returns the
lower_bound entry without checking that its name equals the action, so the
unknown token "a" (lexicographically below every table entry) resolves to
the first table entry and ParseCommandLine succeeds, installing the spawn
handler. -/
theorem parse_unknown_action_c1 :
    FindActionHandler "a" = some ("spawn", ActionType.spawn) ∧
    (ParseCommandLine ["logger", "a"]).map (fun p => p.2) =
      some ActionType.spawn := by
  constructor
  · decide
  · decide

/-- C2: the claim (and the program's own usage text, "up to 16 character")
says an instance id of exactly 16 characters is accepted.  The code
rejects it: kMaxInstanceIdLength = arraysize(saved_instance_id) - 1 = 15,
so the 16-character id below fails with a usage message while the
15-character one is accepted. -/
theorem instance_id_length_c2 :
    kMaxInstanceIdLength = 15 ∧
    ParseCommandLine ["logger", "--instance-id=0123456789abcdef", "start"] =
      none ∧
    (ParseCommandLine ["logger", "--instance-id=0123456789abcde", "start"]).map
      (fun p => p.2) = some ActionType.start := by
  refine ⟨rfl, ?_, ?_⟩
  · decide
  · decide

/-! ### OpenOutputFile (logger_app.cc lines 591-630) -/

def kStdOut : String := "stdout"

def kStdErr : String := "stderr"

inductive OutputSink where
  | toStdout
  | toStderr
  | toFile (path : String) (mode : String)
deriving DecidableEq

/-- towlower in the C locale: ASCII upper-case letters map to lower case. -/
def towlower (c : Char) : Char :=
  if 'A' ≤ c ∧ c ≤ 'Z' then Char.ofNat (c.toNat + 32) else c

/-- `_wcsnicmp(s, t, n) == 0` for NUL-terminated wide strings: compare at
most n characters case-insensitively, stopping at a difference or at the
end (the NUL terminator) of either string; a string ending while the other
continues (within the first n characters) is a difference. -/
def wcsnicmpZero : List Char → List Char → Nat → Bool
  | _, _, 0 => true
  | [], [], _ + 1 => true
  | [], _ :: _, _ + 1 => false
  | _ :: _, [], _ + 1 => false
  | a :: s, b :: t, n + 1 =>
    if towlower a == towlower b then wcsnicmpZero s t n else false

/-- OpenOutputFile (lines 594-630): an empty path, or one that compares
equal to "stdout" under `_wcsnicmp(path, kStdOut, arraysize(kStdOut))`
(arraysize counts the NUL, hence length + 1), resolves to stdout with
must_close = false; likewise "stderr"; any other path is opened with
file_util::OpenFile in mode "wb", or "ab" when the append flag is set, and
must_close = true; failure only when OpenFile returns NULL.  The oracle
`ok` tells whether OpenFile succeeds on a given path and mode. -/
def OpenOutputFile (path : String) (doAppend : Bool)
    (ok : String → String → Bool) : Option (OutputSink × Bool) :=
  if path = "" || wcsnicmpZero path.data kStdOut.data (kStdOut.length + 1) then
    some (OutputSink.toStdout, false)
  else if wcsnicmpZero path.data kStdErr.data (kStdErr.length + 1) then
    some (OutputSink.toStderr, false)
  else
    let mode := if doAppend then "ab" else "wb"
    if ok path mode then some (OutputSink.toFile path mode, true) else none

/-- Case-insensitive string equality, as the specification words the sink
resolution ("stdout"/"stderr", case-insensitive). -/
def eqNoCase (s t : String) : Bool :=
  s.data.map towlower == t.data.map towlower

/-- Output sink resolution exactly as the specification words it: an empty
path defaults to stdout; a path equal (case-insensitively) to "stdout" or
"stderr" yields the corresponding stream with must-close = false; any other
path yields a file opened in truncate mode ("wb") by default and append
mode ("ab") when append was requested, with must-close = true, failing only
when the file cannot be opened. -/
def openOutputSpec (path : String) (doAppend : Bool)
    (ok : String → String → Bool) : Option (OutputSink × Bool) :=
  if path = "" then some (OutputSink.toStdout, false)
  else if eqNoCase path "stdout" then some (OutputSink.toStdout, false)
  else if eqNoCase path "stderr" then some (OutputSink.toStderr, false)
  else if ok path (if doAppend then "ab" else "wb") then
    some (OutputSink.toFile path (if doAppend then "ab" else "wb"), true)
  else none

/-- Comparing n = length + 1 characters of NUL-terminated strings is full
case-insensitive equality: the NUL of the shorter string mismatches any
further character of the longer one. -/
lemma wcsnicmp_eq (t : List Char) :
    ∀ s : List Char,
      wcsnicmpZero s t (t.length + 1) = (s.map towlower == t.map towlower) := by
  induction t with
  | nil => intro s; cases s <;> rfl
  | cons b t ih =>
    intro s
    cases s with
    | nil => rfl
    | cons a s =>
      show (if towlower a == towlower b then
              wcsnicmpZero s t (t.length + 1) else false) = _
      cases hab : towlower a == towlower b <;>
        simp [List.map_cons, List.cons_beq_cons, hab, ih s]

/-- C6: OpenOutputFile resolves the empty path and (case-insensitive)
"stdout" to the standard-output stream with must_close = false,
(case-insensitive) "stderr" to the standard-error stream with
must_close = false, and any other path to a file opened in "wb" mode by
default or "ab" mode under --append with must_close = true, failing only
when the file cannot be opened.  Stated as extensional equality with the
resolution as the specification words it. -/
theorem open_output_c6 (path : String) (doAppend : Bool)
    (ok : String → String → Bool) :
    OpenOutputFile path doAppend ok = openOutputSpec path doAppend ok := by
  unfold OpenOutputFile openOutputSpec
  rw [show kStdOut.length = kStdOut.data.length from rfl,
      show kStdErr.length = kStdErr.data.length from rfl,
      wcsnicmp_eq kStdOut.data path.data, wcsnicmp_eq kStdErr.data path.data]
  by_cases h0 : path = ""
  · simp [h0]
  · cases h1 : eqNoCase path "stdout" with
    | true =>
      have : (path.data.map towlower == kStdOut.data.map towlower) = true := h1
      simp [h0, this]
    | false =>
      have hs : (path.data.map towlower == kStdOut.data.map towlower) = false := h1
      cases h2 : eqNoCase path "stderr" with
      | true =>
        have : (path.data.map towlower == kStdErr.data.map towlower) = true := h2
        simp [h0, hs, this]
      | false =>
        have he : (path.data.map towlower == kStdErr.data.map towlower) = false := h2
        simp [h0, hs, he]

/-! ### Observable events

Each action is modelled as a function from the parsed state and an
environment (the outcomes of the OS and RPC calls it makes) to its boolean
result together with the ordered trace of the external calls it performed. -/

/-- The command line Spawn builds for the background start instance
(lines 517-525): the path to ourselves, the plain argument "start", and the
switches copied from the logger command line. -/
structure BuiltCommandLine where
  program : String
  args : List String
  switches : List (String × String)
deriving DecidableEq

inductive Ev where
  | acquireGuard (name : String)
  | releaseGuard (name : String)
  | initEvent (name : String)
  | openOutput
  | publishId (id : String)
  | installHandler
  | engineStart
  | setEnv (id : String)
  | launchChild
  | waitChild
  | engineStop
  | runToCompletion
  | sendStop (id : String)
  | launchBackground (cmd : BuiltCommandLine)
  | waitMulti (eventName : String)
  | waitSingle (name : String)
deriving DecidableEq

/-- SendStopRequest (lines 77-99): create the RPC binding to the instance
endpoint, then invoke LoggerClient_Stop; true only when both succeed. -/
def SendStopRequest (bindingOk rpcOk : Bool) : Bool := bindingOk && rpcOk

/-! ### LoggerApp::Stop (logger_app.cc lines 562-589) -/

structure StopEnv where
  /-- CreateEvent for the named stop event succeeded. -/
  initEventOk : Bool
  /-- CreateRpcBinding succeeded. -/
  bindingOk : Bool
  /-- The remote LoggerClient_Stop call reported success. -/
  rpcOk : Bool
  /-- WaitForSingleObject(stop_event, INFINITE) returned WAIT_OBJECT_0. -/
  waitSignaled : Bool

/-- Stop (lines 562-589): create (open) the named stop event; on failure
return false.  Then SendStopRequest; on failure return false without
waiting.  Then WaitForSingleObject on the stop event with INFINITE timeout;
true exactly when it reports WAIT_OBJECT_0. -/
def Stop (app : LoggerApp) (env : StopEnv) : Bool × List Ev :=
  let t0 := [Ev.initEvent (stopEventName app.instance_id)]
  if env.initEventOk = false then (false, t0)
  else
    let t1 := t0 ++ [Ev.sendStop app.instance_id]
    if SendStopRequest env.bindingOk env.rpcOk = false then (false, t1)
    else
      (env.waitSignaled, t1 ++ [Ev.waitSingle (stopEventName app.instance_id)])

/-- C3: Stop opens (creates) the named shutdown signal object as its very
first external action, before any stop request; if the stop request fails
(binding or remote call), Stop returns false and its trace contains no wait
on the shutdown signal; and once the event was created and the request
succeeded, Stop returns true exactly when the shutdown signal is observed
as fired. -/
theorem stop_c3 (app : LoggerApp) (env : StopEnv) :
    ((Stop app env).2.head? = some (Ev.initEvent (stopEventName app.instance_id))) ∧
    (SendStopRequest env.bindingOk env.rpcOk = false →
      (Stop app env).1 = false ∧
      Ev.waitSingle (stopEventName app.instance_id) ∉ (Stop app env).2) ∧
    (env.initEventOk = true → SendStopRequest env.bindingOk env.rpcOk = true →
      ((Stop app env).1 = true ↔ env.waitSignaled = true)) := by
  refine ⟨?_, ?_, ?_⟩
  · cases hi : env.initEventOk <;>
      cases hs : SendStopRequest env.bindingOk env.rpcOk <;>
      simp [Stop, hi, hs]
  · intro hs
    cases hi : env.initEventOk <;> simp [Stop, hi, hs]
  · intro hi hs
    simp [Stop, hi, hs]

def cl0 : CommandLineM :=
  { program := "logger", switches := [("instance-id", "x")], args := ["stop"] }

def app0 : LoggerApp :=
  { logger_command_line := cl0, app_command_line := none,
    instance_id := "x", output_file_path := "", append := false }

theorem stop_c3_w :
    (Stop app0 { initEventOk := true, bindingOk := false, rpcOk := false,
                 waitSignaled := true }).1 = false ∧
    Ev.waitSingle (stopEventName app0.instance_id) ∉
      (Stop app0 { initEventOk := true, bindingOk := false, rpcOk := false,
                   waitSignaled := true }).2 :=
  (stop_c3 app0 _).2.1 rfl

/-! ### LoggerApp::Spawn (logger_app.cc lines 507-560) -/

/-- The outcome of WaitForMultipleObjects over the two handles
{start_event, service_process} with bWaitAll = FALSE: index 0 (the start
event) fired, index 1 (the process handle) fired, or the wait failed. -/
inductive MultiWait where
  | object0
  | object1
  | failed
deriving DecidableEq

structure SpawnEnv where
  /-- PathService::Get(base::FILE_EXE): the path to ourselves. -/
  selfPath : String
  /-- base::LaunchProcess of the background instance succeeded. -/
  launchOk : Bool
  /-- CreateEvent for the named start event succeeded. -/
  initStartEventOk : Bool
  /-- Which handle WaitForMultipleObjects reported. -/
  wait : MultiWait

/-- The command line built by Spawn (lines 513-525): the path to ourselves,
the appended plain argument "start", and every switch of the logger command
line copied over. -/
def spawnCmd (selfPath : String) (cl : CommandLineM) : BuiltCommandLine :=
  { program := selfPath, args := ["start"], switches := cl.switches }

/-- Spawn (lines 507-560): build the start command line, launch it in the
background (failure aborts), create the named start event (failure aborts),
then perform one WaitForMultipleObjects over {start event, process handle}
with bWaitAll = FALSE and INFINITE timeout; true exactly when the result is
WAIT_OBJECT_0, the start event. -/
def Spawn (app : LoggerApp) (env : SpawnEnv) : Bool × List Ev :=
  let cmd := spawnCmd env.selfPath app.logger_command_line
  let t0 := [Ev.launchBackground cmd]
  if env.launchOk = false then (false, t0)
  else
    let t1 := t0 ++ [Ev.initEvent (startEventName app.instance_id)]
    if env.initStartEventOk = false then (false, t1)
    else
      (decide (env.wait = MultiWait.object0),
       t1 ++ [Ev.waitMulti (startEventName app.instance_id)])

/-- C4: Spawn builds a start invocation of the same program carrying every
switch of the original controller command line and launches it in the
background; it succeeds exactly when the launch and the creation of the
readiness event succeed and the readiness signal fires first in the single
atomic two-handle wait (WAIT_OBJECT_0); in particular when the process
handle fires first (WAIT_OBJECT_0 + 1) it reports failure.  Once launch and
event creation succeed, the whole trace is the background launch of that
command followed by the event creation and exactly one atomic wait. -/
theorem spawn_c4 (app : LoggerApp) (env : SpawnEnv) :
    ((Spawn app env).1 = true ↔
      env.launchOk = true ∧ env.initStartEventOk = true ∧
      env.wait = MultiWait.object0) ∧
    (spawnCmd env.selfPath app.logger_command_line).switches =
      app.logger_command_line.switches ∧
    (env.launchOk = true → env.initStartEventOk = true →
      (Spawn app env).2 =
        [Ev.launchBackground (spawnCmd env.selfPath app.logger_command_line),
         Ev.initEvent (startEventName app.instance_id),
         Ev.waitMulti (startEventName app.instance_id)]) := by
  refine ⟨?_, rfl, ?_⟩
  · cases hl : env.launchOk <;> cases hi : env.initStartEventOk <;>
      simp [Spawn, hl, hi]
  · intro hl hi
    simp [Spawn, hl, hi]

theorem spawn_c4_w :
    (Spawn app0 { selfPath := "logger.exe", launchOk := true,
                  initStartEventOk := true, wait := MultiWait.object0 }).2 =
      [Ev.launchBackground (spawnCmd "logger.exe" app0.logger_command_line),
       Ev.initEvent (startEventName app0.instance_id),
       Ev.waitMulti (startEventName app0.instance_id)] :=
  (spawn_c4 app0 _).2.2 rfl rfl

/-- C10: the command line Spawn builds consists of the program path, the
single plain argument "start" and exactly the switches of the controller
command line; the wrapped command of the Spawn invocation is never
forwarded: the whole behaviour of Spawn is unchanged under any replacement
of the wrapped command. -/
theorem spawn_no_forward_c10 (app : LoggerApp) (env : SpawnEnv)
    (w : Option (List String)) :
    spawnCmd env.selfPath app.logger_command_line =
      { program := env.selfPath, args := ["start"],
        switches := app.logger_command_line.switches } ∧
    Spawn { app with app_command_line := w } env = Spawn app env := by
  exact ⟨rfl, rfl⟩

/-! ### LoggerApp::Start (logger_app.cc lines 397-500)

The guard mutex is held in a base::win::ScopedHandle local: C++ scope-exit
semantics run its destructor, which closes (releases) the handle, exactly
once on every return path after a successful acquisition.  `Start` models
this by appending the single releaseGuard step at its unique scope exit;
`StartBody` is everything that executes between acquisition and scope
exit. -/

/-- Outcome of AcquireMutex (lines 147-182): CreateMutex failure, or the
WaitForSingleObject result with a one-second timeout.  WAIT_ABANDONED (an
orphaned mutex) logs a warning but still grants ownership. -/
inductive AcquireOutcome where
  | createFailed
  | abandoned
  | acquired
  | timedOut
  | waitFailed
deriving DecidableEq

/-- AcquireMutex's boolean result: ownership is granted on WAIT_OBJECT_0
and WAIT_ABANDONED only. -/
def AcquireMutex : AcquireOutcome → Bool
  | AcquireOutcome.abandoned => true
  | AcquireOutcome.acquired => true
  | _ => false

structure StartEnv where
  /-- AcquireMutex outcome for the named logger mutex. -/
  acquire : AcquireOutcome
  /-- CreateEvent for the named start event succeeded. -/
  initStartEventOk : Bool
  /-- CreateEvent for the named stop event succeeded. -/
  initStopEventOk : Bool
  /-- Whether file_util::OpenFile succeeds on a given path and mode. -/
  openFileOk : String → String → Bool
  /-- SetConsoleCtrlHandler(&OnConsoleCtrl, TRUE) at line 454 succeeded. -/
  setHandlerOk : Bool
  /-- logger.Start() succeeded. -/
  loggerStartOk : Bool
  /-- base::LaunchProcess of the wrapped command succeeded. -/
  launchChildOk : Bool
  /-- base::WaitForExitCode on the wrapped command succeeded. -/
  waitChildOk : Bool
  /-- The wrapped command's exit code. -/
  childExitCode : Int
  /-- ScopedConsoleCtrlHandler::Init succeeded (no-child branch only). -/
  ctrlInitOk : Bool
  /-- logger.RunToCompletion() succeeded. -/
  runToCompletionOk : Bool

/-- RunApp (lines 259-288): set the instance-id environment variable for
the child, then launch the wrapped command in the foreground (failure →
false), then wait for its exit code (failure → false); on success the exit
code is reported through the out parameter (initialized to 0 by the
caller). -/
def RunAppModel (env : StartEnv) (id : String) : (Bool × Int) × List Ev :=
  let t0 := [Ev.setEnv id, Ev.launchChild]
  if env.launchChildOk = false then ((false, 0), t0)
  else if env.waitChildOk = false then ((false, 0), t0 ++ [Ev.waitChild])
  else ((true, env.childExitCode), t0 ++ [Ev.waitChild])

/-- The body of Start after the guard was acquired (lines 407-499): create
the named start and stop events (each failure aborts), resolve the output
sink (failure aborts), publish the instance id into saved_instance_id and
register OnConsoleCtrl (failure aborts), start the logger engine (failure
aborts); then, with a wrapped command, RunApp it and unconditionally ask
the engine to stop afterwards (an error is recorded when RunApp failed or
the exit code is nonzero); without one, register the scoped control handler
(on failure ask the engine to stop and record an error); finally run the
engine to completion (failure records an error).  Result: no error
recorded. -/
def StartBody (app : LoggerApp) (env : StartEnv) : Bool × List Ev :=
  let t1 := [Ev.initEvent (startEventName app.instance_id)]
  if env.initStartEventOk = false then (false, t1)
  else
    let t2 := t1 ++ [Ev.initEvent (stopEventName app.instance_id)]
    if env.initStopEventOk = false then (false, t2)
    else
      let t3 := t2 ++ [Ev.openOutput]
      if (OpenOutputFile app.output_file_path app.append env.openFileOk).isSome
          = false then
        (false, t3)
      else
        let t4 := t3 ++ [Ev.publishId app.instance_id, Ev.installHandler]
        if env.setHandlerOk = false then (false, t4)
        else
          let t5 := t4 ++ [Ev.engineStart]
          if env.loggerStartOk = false then (false, t5)
          else
            match app.app_command_line with
            | some _ =>
              let r := RunAppModel env app.instance_id
              let errA : Bool := !r.1.1 || !(r.1.2 == 0)
              (!(errA || !env.runToCompletionOk),
               t5 ++ r.2 ++ [Ev.engineStop, Ev.runToCompletion])
            | none =>
              if env.ctrlInitOk = false then
                (false,
                 t5 ++ [Ev.installHandler, Ev.engineStop, Ev.runToCompletion])
              else
                (env.runToCompletionOk,
                 t5 ++ [Ev.installHandler, Ev.runToCompletion])

/-- Start (lines 397-500): acquire the named guard mutex (failure returns
with nothing acquired); afterwards run the body, with the ScopedHandle
destructor releasing the guard at the unique scope exit. -/
def Start (app : LoggerApp) (env : StartEnv) : Bool × List Ev :=
  let mname := mutexName app.instance_id
  if AcquireMutex env.acquire = false then (false, [Ev.acquireGuard mname])
  else
    let r := StartBody app env
    (r.1, Ev.acquireGuard mname :: (r.2 ++ [Ev.releaseGuard mname]))

/-- The steps of Start up to and including the console-handler
registration are reached when the guard, both events and the output sink
succeeded. -/
def reachesInstallPhase (app : LoggerApp) (env : StartEnv) : Bool :=
  AcquireMutex env.acquire && env.initStartEventOk && env.initStopEventOk &&
  (OpenOutputFile app.output_file_path app.append env.openFileOk).isSome

/-- The run phase of Start (line 470 onward) is reached when additionally
the handler registration and the engine start succeeded. -/
def reachesRunPhase (app : LoggerApp) (env : StartEnv) : Bool :=
  reachesInstallPhase app env && env.setHandlerOk && env.loggerStartOk

/-- The boolean result of the post-acquisition body, as one formula. -/
lemma startBody_res (app : LoggerApp) (env : StartEnv) :
    (StartBody app env).1 =
      (env.initStartEventOk && env.initStopEventOk &&
       (OpenOutputFile app.output_file_path app.append env.openFileOk).isSome &&
       env.setHandlerOk && env.loggerStartOk &&
       (match app.app_command_line with
        | some _ =>
          env.launchChildOk && env.waitChildOk && (env.childExitCode == 0)
        | none => env.ctrlInitOk) &&
       env.runToCompletionOk) := by
  cases happ : app.app_command_line with
  | none =>
    cases h1 : env.initStartEventOk <;>
    cases h2 : env.initStopEventOk <;>
    cases h3 : (OpenOutputFile app.output_file_path app.append
        env.openFileOk).isSome <;>
    cases h4 : env.setHandlerOk <;>
    cases h5 : env.loggerStartOk <;>
    cases h9 : env.ctrlInitOk <;>
    cases h10 : env.runToCompletionOk <;>
      simp [StartBody, happ, h1, h2, h3, h4, h5, h9, h10]
  | some c =>
    cases h1 : env.initStartEventOk <;>
    cases h2 : env.initStopEventOk <;>
    cases h3 : (OpenOutputFile app.output_file_path app.append
        env.openFileOk).isSome <;>
    cases h4 : env.setHandlerOk <;>
    cases h5 : env.loggerStartOk <;>
    cases h7 : env.launchChildOk <;>
    cases h8 : env.waitChildOk <;>
    cases h10 : env.runToCompletionOk <;>
      simp [StartBody, RunAppModel, happ, h1, h2, h3, h4, h5, h7, h8, h10]

/-- C7: when the guard acquisition fails, Start returns false having
acquired nothing; when it succeeds, every exit path of Start ends with the
guard release (the ScopedHandle scope-exit close) as its last external
step, and in particular every failure path (event-creation failure,
output-sink failure, handler-registration failure, engine start or
run-to-completion failure, child launch failure) returns false with the
guard released. -/
theorem start_guard_c7 (app : LoggerApp) (env : StartEnv) :
    (AcquireMutex env.acquire = false →
      Start app env = (false, [Ev.acquireGuard (mutexName app.instance_id)])) ∧
    (AcquireMutex env.acquire = true →
      (Start app env).2.getLast? =
        some (Ev.releaseGuard (mutexName app.instance_id)) ∧
      ((env.initStartEventOk = false ∨ env.initStopEventOk = false ∨
        (OpenOutputFile app.output_file_path app.append env.openFileOk).isSome
          = false ∨
        env.setHandlerOk = false ∨ env.loggerStartOk = false ∨
        env.runToCompletionOk = false ∨
        (app.app_command_line ≠ none ∧ env.launchChildOk = false)) →
        (Start app env).1 = false)) := by
  constructor
  · intro h
    simp [Start, h]
  · intro h
    have e1 : Start app env = ((StartBody app env).1,
        Ev.acquireGuard (mutexName app.instance_id) ::
        ((StartBody app env).2 ++
         [Ev.releaseGuard (mutexName app.instance_id)])) := by
      simp [Start, h]
    constructor
    · rw [e1]
      show (Ev.acquireGuard (mutexName app.instance_id) ::
        ((StartBody app env).2 ++
         [Ev.releaseGuard (mutexName app.instance_id)])).getLast? = _
      rw [← List.cons_append]
      exact List.getLast?_concat _
    · intro hf
      rw [e1]
      show (StartBody app env).1 = false
      rw [startBody_res]
      rcases hf with h | h | h | h | h | h | hcl
      · simp [h]
      · simp [h]
      · simp [h]
      · simp [h]
      · simp [h]
      · simp [h]
      · obtain ⟨hc, hl⟩ := hcl
        cases happ : app.app_command_line with
        | none => exact absurd happ hc
        | some c => simp [happ, hl]

def envC7 : StartEnv :=
  { acquire := AcquireOutcome.acquired, initStartEventOk := false,
    initStopEventOk := true, openFileOk := fun _ _ => true,
    setHandlerOk := true, loggerStartOk := true, launchChildOk := true,
    waitChildOk := true, childExitCode := 0, ctrlInitOk := true,
    runToCompletionOk := true }

theorem start_guard_c7_w :
    (Start app0 envC7).2.getLast? =
      some (Ev.releaseGuard (mutexName app0.instance_id)) ∧
    (Start app0 envC7).1 = false :=
  ⟨((start_guard_c7 app0 envC7).2 rfl).1,
   ((start_guard_c7 app0 envC7).2 rfl).2 (Or.inl rfl)⟩

/-- The fixed first seven external steps of Start once the run phase is
reached. -/
def startHead (app : LoggerApp) : List Ev :=
  [Ev.acquireGuard (mutexName app.instance_id),
   Ev.initEvent (startEventName app.instance_id),
   Ev.initEvent (stopEventName app.instance_id),
   Ev.openOutput, Ev.publishId app.instance_id, Ev.installHandler,
   Ev.engineStart]

/-- C8: with a wrapped command present and the run phase reached, the
trace of Start is exactly: the fixed head, then the environment-variable
publication of the resolved instance id followed immediately by the
foreground launch of the child, the wait for its exit whenever the launch
succeeded, and then — unconditionally, for every exit code and also when
the launch or the wait failed — the engine stop request, before the final
run-to-completion and the guard release. -/
theorem start_wrapped_c8 (app : LoggerApp) (env : StartEnv)
    (c : List String) (hc : app.app_command_line = some c)
    (hr : reachesRunPhase app env = true) :
    (Start app env).2 =
      startHead app ++
      ([Ev.setEnv app.instance_id, Ev.launchChild] ++
       (if env.launchChildOk = true then [Ev.waitChild] else []) ++
       [Ev.engineStop, Ev.runToCompletion]) ++
      [Ev.releaseGuard (mutexName app.instance_id)] := by
  simp only [reachesRunPhase, reachesInstallPhase, Bool.and_eq_true] at hr
  obtain ⟨⟨⟨⟨⟨hA, h1⟩, h2⟩, h3⟩, h4⟩, h5⟩ := hr
  cases h7 : env.launchChildOk <;> cases h8 : env.waitChildOk <;>
    simp [Start, StartBody, RunAppModel, startHead, hA, h1, h2, h3, h4, h5,
          hc, h7, h8]

def appC8 : LoggerApp :=
  { logger_command_line := cl0, app_command_line := some ["app.exe"],
    instance_id := "x", output_file_path := "", append := false }

def envC8 : StartEnv :=
  { acquire := AcquireOutcome.acquired, initStartEventOk := true,
    initStopEventOk := true, openFileOk := fun _ _ => true,
    setHandlerOk := true, loggerStartOk := true, launchChildOk := true,
    waitChildOk := true, childExitCode := 7, ctrlInitOk := true,
    runToCompletionOk := true }

theorem start_wrapped_c8_w :
    (Start appC8 envC8).2 =
      startHead appC8 ++
      ([Ev.setEnv appC8.instance_id, Ev.launchChild] ++
       (if envC8.launchChildOk = true then [Ev.waitChild] else []) ++
       [Ev.engineStop, Ev.runToCompletion]) ++
      [Ev.releaseGuard (mutexName appC8.instance_id)] :=
  start_wrapped_c8 appC8 envC8 ["app.exe"] rfl rfl

/-! ### OnConsoleCtrl (logger_app.cc lines 101-108) -/

/-- The Windows console control event for session logoff. -/
def CTRL_LOGOFF_EVENT : Nat := 5

/-- The process-wide state readable from the handler: the instance id
saved into `saved_instance_id` (line 448) before the handler was
installed (line 454). -/
structure CtrlState where
  savedInstanceId : String
deriving DecidableEq

/-- OnConsoleCtrl (lines 102-108): for every control type other than
CTRL_LOGOFF_EVENT, send a stop request for the saved instance id (its
result is ignored) and return TRUE (handled); for CTRL_LOGOFF_EVENT do
nothing and return FALSE (unhandled).  The handler only reads the saved
state; the returned state is the unchanged input. -/
def OnConsoleCtrl (ctrlType : Nat) (g : CtrlState) :
    Bool × List Ev × CtrlState :=
  if ctrlType ≠ CTRL_LOGOFF_EVENT then
    (true, [Ev.sendStop g.savedInstanceId], g)
  else
    (false, [], g)

/-- C9: for every control type other than session logoff, the handler
performs exactly one action — a stop request addressed by the published
instance id — and reports the event handled; for session logoff it sends
nothing and reports the event unhandled; in both cases the published state
is returned unmutated.  Moreover, in Start the instance id is published
(saved_instance_id written, step 5) strictly before the handler is
installed (step 6), as the take-6 prefix of every trace reaching the
installation shows. -/
theorem console_ctrl_c9 :
    (∀ ctrlType g, ctrlType ≠ CTRL_LOGOFF_EVENT →
      OnConsoleCtrl ctrlType g = (true, [Ev.sendStop g.savedInstanceId], g)) ∧
    (∀ g, OnConsoleCtrl CTRL_LOGOFF_EVENT g = (false, [], g)) ∧
    (∀ app env, reachesInstallPhase app env = true →
      (Start app env).2.take 6 =
        [Ev.acquireGuard (mutexName app.instance_id),
         Ev.initEvent (startEventName app.instance_id),
         Ev.initEvent (stopEventName app.instance_id),
         Ev.openOutput, Ev.publishId app.instance_id,
         Ev.installHandler]) := by
  refine ⟨?_, ?_, ?_⟩
  · intro ctrlType g hne
    simp [OnConsoleCtrl, hne]
  · intro g
    simp [OnConsoleCtrl]
  · intro app env hr
    simp only [reachesInstallPhase, Bool.and_eq_true] at hr
    obtain ⟨⟨⟨hA, h1⟩, h2⟩, h3⟩ := hr
    cases h4 : env.setHandlerOk <;> cases h5 : env.loggerStartOk <;>
      cases happ : app.app_command_line <;>
      cases h7 : env.launchChildOk <;> cases h8 : env.waitChildOk <;>
      cases h9 : env.ctrlInitOk <;>
        simp [Start, StartBody, RunAppModel, hA, h1, h2, h3, h4, h5, happ,
              h7, h8, h9]

theorem console_ctrl_c9_w :
    OnConsoleCtrl 0 { savedInstanceId := "x" } =
      (true, [Ev.sendStop "x"], { savedInstanceId := "x" }) ∧
    (Start appC8 envC8).2.take 6 =
      [Ev.acquireGuard (mutexName appC8.instance_id),
       Ev.initEvent (startEventName appC8.instance_id),
       Ev.initEvent (stopEventName appC8.instance_id),
       Ev.openOutput, Ev.publishId appC8.instance_id,
       Ev.installHandler] :=
  ⟨console_ctrl_c9.1 0 _ (by decide), console_ctrl_c9.2.2 appC8 envC8 rfl⟩

end Syzygy
